import Mathlib

/-!
Verification of the session bookkeeping and response-mapping logic of a
small Flask chat front-end (src/main.py).  The Python functions are
shallowly embedded: the per-session state is a record of optional session
keys, the external API response is a record of the fields the code reads,
and each Flask route becomes a pure function on the state (the response
from the external API, and the two timestamps, are inputs).
-/

/-- One annotation block read from a response content block
(duck-typed attributes `type`, `filename`, `page` in the Python code).
`page` is `none` when the attribute is missing or `None`. -/
structure Ann where
  type : String
  filename : String
  page : Option Int
deriving DecidableEq, Repr

/-- A content block of a response output item: only its `annotations`
attribute is read. -/
structure Block where
  annotations : List Ann
deriving DecidableEq, Repr

/-- An output item of a response: only its `content` attribute is read. -/
structure OutputItem where
  content : List Block
deriving DecidableEq, Repr

/-- The fields of the external API response object that src/main.py reads:
`id`, `output_text` (already coalesced to a string, matching
`getattr(resp, "output_text", "") or ""`), and the `output` list. -/
structure Resp where
  id : String
  output_text : String
  output : List OutputItem
deriving DecidableEq, Repr

/-- A (filename, page) citation as assembled in `_extract_text_and_sources`. -/
structure Citation where
  filename : String
  page : Option Int
deriving DecidableEq, Repr

/-- One transcript turn, the dict
`{"role": ..., "text": ..., "time": ..., "response_id": ...}`;
user turns carry no `response_id` key, modelled as `none`. -/
structure Msg where
  role : String
  text : String
  time : String
  response_id : Option String := none
deriving DecidableEq, Repr

/-- The Flask session: the two keys `chat` and `source`, each possibly
absent. -/
structure SessionState where
  chat : Option (List Msg)
  source : Option String
deriving DecidableEq, Repr

/-- Python whitespace characters stripped by `str.strip()`. -/
def isPySpace (c : Char) : Bool :=
  c = ' ' || c = '\t' || c = '\n' || c = '\r' || c = '\x0b' || c = '\x0c'

/-- Python `s.strip()`. -/
def pyStrip (s : String) : String :=
  String.mk (((s.data.dropWhile isPySpace).reverse.dropWhile isPySpace).reverse)

/-- Python `needle in hay` for strings: substring containment. -/
def strContains (hay needle : String) : Bool :=
  decide (needle.data <:+: hay.data)

/-- The value `_ensure_history()` returns: the stored chat list, or the
fresh empty list it installs when the key is absent. -/
def ensure_history (st : SessionState) : List Msg :=
  st.chat.getD []

/-- The value `_ensure_source()` returns: the stored source, or the
default "brd" it installs when the key is absent. -/
def ensure_source (st : SessionState) : String :=
  st.source.getD "brd"

/-- The truthiness of `msg.get("response_id")`: a present, non-empty id. -/
def respIdTruthy (m : Msg) : Bool :=
  match m.response_id with
  | some s => s != ""
  | none => false

/-- `_get_last_response_id`: scan the chat from the end for the first
assistant turn with a truthy response id. -/
def get_last_response_id (chat : List Msg) : Option String :=
  (chat.reverse.find? (fun m => m.role == "assistant" && respIdTruthy m)).bind
    (fun m => m.response_id)

/-- `_get_system_prompt`: the dynamic system prompt for the selected
source. -/
def get_system_prompt (source : String) : String :=
  let doc_type := if source = "brd" then "Business Requirements Documents (BRDs) in Arabic"
    else "Functional Specification Documents (FSDs) in English"
  let scope_msg := if source = "brd" then "This question appears to be outside the scope of the BRDs."
    else "This question appears to be outside the scope of the FSDs."
  "You are an AI assistant specialized in answering questions only from official " ++ doc_type ++ ".\n\nRole:\nYour core purpose is to help users understand system workflows, processes, business rules, and requirements extracted from those documents.\nYou must not answer questions outside the document domain.\n\nAll factual answers must come exclusively from the indexed documents.\n\nAlways reply in the same language as the user\x27s question.\n\nProvide a clear, structured answer.\n\nAlways include citations from the retrieved documents (if available) — specify:\n- Document name\n- Section name or heading\n- Page number\n\nBe concise but faithful — summarize multiple chunks logically without changing their meaning.\n\nNever guess or assume. If no direct match is found, say clearly:\n\"" ++ scope_msg ++ "\"\n\nSupport follow-up questions — retain context across turns within the session.\n\nIf multiple related sections are found, merge insights and list all relevant sources.\n\nMaintain a professional, explanatory tone suitable for analysts or technical users.\n\nIf the query concerns anything outside the document domain (e.g., religious, legal, personal, or unrelated technical questions):\n\"I can only answer questions that are documented in the official documents.\"\n\nIf unsure, use:\n\"" ++ scope_msg ++ "\"\n\nPreserve the chat context to understand follow-up questions.\n\nIf the user asks a follow-up like \"What happens next?\" — infer based on previous question context and retrieved document continuity.\n"

/-- The annotation test `getattr(ann, "type", None) == "file_citation"`. -/
def isFileCitation (a : Ann) : Bool :=
  a.type == "file_citation"

/-- The nested annotation-collecting loops of `_extract_text_and_sources`
(lines 105-113): append a citation for every annotation whose type is
"file_citation". -/
def collectSources (resp : Resp) : List Citation :=
  resp.output.foldl
    (fun acc item =>
      item.content.foldl
        (fun acc2 block =>
          block.annotations.foldl
            (fun acc3 ann =>
              if isFileCitation ann
              then acc3 ++ [{ filename := ann.filename, page := ann.page }]
              else acc3)
            acc2)
        acc)
    []

/-- The de-duplication loop of `_extract_text_and_sources` (lines
117-123): a `seen` set of (filename, page) keys, keeping the first
occurrence of each key.  The set is modelled as the list of keys added
so far. -/
def dedupLoop (sources : List Citation) : List Citation :=
  (sources.foldl
    (fun (p : List (String × Option Int) × List Citation) s =>
      if (s.filename, s.page) ∈ p.1 then p
      else ((s.filename, s.page) :: p.1, p.2 ++ [s]))
    ([], [])).2

/-- One line of the Sources block: `f"{i}. {s['filename']}{page}\n"`, with
the page suffix present only when the page value is truthy (non-zero). -/
def sourceLine (i : Nat) (s : Citation) : String :=
  let page :=
    match s.page with
    | some p => if p = 0 then "" else ", p." ++ toString p
    | none => ""
  toString i ++ ". " ++ s.filename ++ page ++ "\n"

/-- `_extract_text_and_sources`: the primary text, plus a numbered
Sources block when the de-duplicated citation list is non-empty. -/
def extract_text_and_sources (resp : Resp) : String :=
  let text := resp.output_text
  let uniq := dedupLoop (collectSources resp)
  if uniq = [] then text
  else
    (uniq.enum).foldl
      (fun acc p => acc ++ sourceLine (p.1 + 1) p.2)
      (text ++ "\n\nSources:\n")

/-- The configuration read from the environment at startup. -/
structure Config where
  MODEL : String
  VECTOR_STORE_BRD : String
  VECTOR_STORE_FSD : String
deriving DecidableEq, Repr

/-- The `input` payload of the outbound call: either the fresh
system-prompt-plus-question list, or just the question string. -/
inductive InputContent where
  | fresh (system_prompt : String) (question : String)
  | followup (question : String)
deriving DecidableEq, Repr

/-- The outbound request to `client.responses.create`: the kwargs plus
the file-search tool binding (`none` when no tool is attached, `some v`
when a file_search tool over vector store `v` is attached, covering both
SDK call shapes). -/
structure SentRequest where
  model : String
  input : InputContent
  store : Bool
  previous_response_id : Option String
  tools : Option String
deriving DecidableEq, Repr

/-- Selection of the vector store for the current source (line 183). -/
def vectorStoreFor (cfg : Config) (source : String) : String :=
  if source = "brd" then cfg.VECTOR_STORE_BRD else cfg.VECTOR_STORE_FSD

/-- The kwargs of the outbound `client.responses.create` call (lines
186-232): fresh system-prompt-plus-question input when no previous
response id exists, otherwise just the question with the previous
response id attached; the file-search tool is attached exactly when a
vector store id is configured. -/
def buildRequest (cfg : Config) (source q : String) (chat1 : List Msg) :
    SentRequest :=
  let previous_response_id := get_last_response_id chat1
  { model := cfg.MODEL
    input :=
      match previous_response_id with
      | none => .fresh (get_system_prompt source) q
      | some _ => .followup q
    store := true
    previous_response_id :=
      match previous_response_id with
      | some r => if r = "" then none else some r
      | none => none
    tools :=
      if vectorStoreFor cfg source != "" then some (vectorStoreFor cfg source)
      else none }

/-- The out-of-scope overwrite message (line 237). -/
def oosMsg : String :=
  "This question appears to be outside the scope of the BRDs and FSDs."

/-- The empty-response fallback message (line 240). -/
def noTextMsg : String :=
  "I didn\x27t receive any text in the response."

/-- The result of one `/ask` request: the new session state, the request
sent to the external API (`none` when no call was made), and the redirect
target (always the home page). -/
structure AskOutcome where
  state : SessionState
  sent : Option SentRequest
  redirect : String
deriving DecidableEq, Repr

/-- The assistant text shown to the user (lines 234-240): the extracted
text, overwritten with the out-of-scope message when a store is
configured but "Sources:" does not occur in it, then replaced by the
fallback message when blank. -/
def displayed_text (has_store : Bool) (resp : Resp) : String :=
  let assistant_text0 := extract_text_and_sources resp
  let assistant_text1 :=
    if has_store && !(strContains assistant_text0 "Sources:")
    then oosMsg else assistant_text0
  if pyStrip assistant_text1 = "" then noTextMsg else assistant_text1

/-- The `/ask` route (lines 169-251), with the API response and the two
timestamps taken as inputs. -/
def ask (cfg : Config) (st : SessionState) (rawQ : String) (resp : Resp)
    (tU tA : String) : AskOutcome :=
  let q := pyStrip rawQ
  if q = "" then ⟨st, none, "home"⟩
  else
    let chat := ensure_history st
    let source := ensure_source st
    let chat1 := chat ++ [{ role := "user", text := q, time := tU }]
    let has_store := vectorStoreFor cfg source != ""
    let assistant_text := displayed_text has_store resp
    let chat2 := chat1 ++
      [{ role := "assistant", text := assistant_text, time := tA,
         response_id := some resp.id }]
    ⟨⟨some chat2, some source⟩, some (buildRequest cfg source q chat1), "home"⟩

/-- The `/toggle_source` route (lines 160-166). -/
def toggle_source (st : SessionState) : SessionState :=
  let current := ensure_source st
  { chat := st.chat, source := some (if current = "brd" then "fsd" else "brd") }

/-- The `/reset` route (lines 254-258): pop the chat key, keep the
source. -/
def reset (st : SessionState) : SessionState :=
  { chat := none, source := st.source }

/-- The session effect of the `/` route (lines 143-157): both ensure
helpers run; the rendered message list does not change the state. -/
def home (st : SessionState) : SessionState :=
  { chat := some (ensure_history st), source := some (ensure_source st) }

/-!
Spec-side definitions, written from the wording of the specification and
of the claims, to be compared with the source-side functions above.
-/

/-- Spec-side: the file-citation annotations of a response, flattened in
order, as (document name, page) citations. -/
def fileCitationsOf (resp : Resp) : List Citation :=
  resp.output.flatMap fun item =>
    item.content.flatMap fun block =>
      (block.annotations.filter isFileCitation).map
        fun a => { filename := a.filename, page := a.page }

/-- Spec-side: remove duplicate (filename, page) pairs, keeping the first
occurrence of each pair; `seen` is the set of keys already kept. -/
def dedupFirst : List Citation → List (String × Option Int) → List Citation
  | [], _ => []
  | s :: rest, seen =>
    if (s.filename, s.page) ∈ seen then dedupFirst rest seen
    else s :: dedupFirst rest ((s.filename, s.page) :: seen)

/-- Spec-side: the Sources block lines, numbered consecutively starting
at `i`, in list order. -/
def numberFrom : Nat → List Citation → String
  | _, [] => ""
  | i, s :: rest => sourceLine i s ++ numberFrom (i + 1) rest

/-- The session states reachable through the routes of the app, starting
from a fresh session with neither key set. -/
inductive Reachable : SessionState → Prop
  | init : Reachable ⟨none, none⟩
  | home (st : SessionState) : Reachable st → Reachable (home st)
  | toggle (st : SessionState) : Reachable st → Reachable (toggle_source st)
  | reset (st : SessionState) : Reachable st → Reachable (reset st)
  | ask (cfg : Config) (st : SessionState) (rawQ : String) (resp : Resp)
      (tU tA : String) : Reachable st →
      Reachable (ask cfg st rawQ resp tU tA).state

/-! Helper lemmas. -/

theorem str_append_assoc (a b c : String) : a ++ b ++ c = a ++ (b ++ c) := by
  apply String.ext
  simp

theorem str_append_empty (a : String) : a ++ "" = a := by
  apply String.ext
  simp

theorem annFold_eq (l : List Ann) (acc : List Citation) :
    l.foldl
      (fun acc3 ann =>
        if isFileCitation ann
        then acc3 ++ [{ filename := ann.filename, page := ann.page }]
        else acc3) acc
    = acc ++ (l.filter isFileCitation).map
        (fun a => { filename := a.filename, page := a.page }) := by
  induction l generalizing acc with
  | nil => simp
  | cons a l ih =>
    cases h : isFileCitation a <;>
      simp [List.filter_cons, h, ih]

theorem foldl_append_eq {α β : Type} (g : α → List β) (l : List α)
    (acc : List β) :
    l.foldl (fun acc x => acc ++ g x) acc = acc ++ l.flatMap g := by
  induction l generalizing acc with
  | nil => simp
  | cons x l ih => simp [ih]

theorem collectSources_eq_spec (resp : Resp) :
    collectSources resp = fileCitationsOf resp := by
  unfold collectSources fileCitationsOf
  simp only [annFold_eq, foldl_append_eq]
  simp

theorem dedupLoop_eq_aux (l : List Citation)
    (seen : List (String × Option Int)) (uniq : List Citation) :
    (l.foldl
      (fun (p : List (String × Option Int) × List Citation) s =>
        if (s.filename, s.page) ∈ p.1 then p
        else ((s.filename, s.page) :: p.1, p.2 ++ [s])) (seen, uniq)).2
    = uniq ++ dedupFirst l seen := by
  induction l generalizing seen uniq with
  | nil => simp [dedupFirst]
  | cons s l ih =>
    by_cases h : (s.filename, s.page) ∈ seen
    · simp [dedupFirst, h, ih]
    · simp [dedupFirst, h, ih]

theorem dedupLoop_eq (l : List Citation) : dedupLoop l = dedupFirst l [] := by
  unfold dedupLoop
  rw [dedupLoop_eq_aux]
  simp

theorem dedupFirst_eq_nil_iff (l : List Citation) :
    dedupFirst l [] = [] ↔ l = [] := by
  cases l <;> simp [dedupFirst]

theorem dedupFirst_sublist (l : List Citation)
    (seen : List (String × Option Int)) :
    List.Sublist (dedupFirst l seen) l := by
  induction l generalizing seen with
  | nil => simp [dedupFirst]
  | cons s l ih =>
    by_cases h : (s.filename, s.page) ∈ seen
    · simp only [dedupFirst, if_pos h]
      exact (ih _).cons _
    · simp only [dedupFirst, if_neg h]
      exact (ih _).cons₂ _

theorem dedupFirst_key_nodup (l : List Citation)
    (seen : List (String × Option Int)) :
    ((dedupFirst l seen).map (fun s => (s.filename, s.page))).Nodup ∧
    ∀ k ∈ (dedupFirst l seen).map (fun s => (s.filename, s.page)),
      k ∉ seen := by
  induction l generalizing seen with
  | nil => simp [dedupFirst]
  | cons s l ih =>
    by_cases h : (s.filename, s.page) ∈ seen
    · simp only [dedupFirst, if_pos h]
      exact ih seen
    · simp only [dedupFirst, if_neg h, List.map_cons, List.nodup_cons]
      obtain ⟨h1, h2⟩ := ih ((s.filename, s.page) :: seen)
      refine ⟨⟨?_, h1⟩, ?_⟩
      · intro hmem
        exact (h2 _ hmem) (List.mem_cons_self _ _)
      · intro k hk
        rcases List.mem_cons.mp hk with rfl | hk2
        · exact h
        · intro hseen
          exact (h2 k hk2) (List.mem_cons_of_mem _ hseen)

theorem dedupFirst_covers (l : List Citation)
    (seen : List (String × Option Int)) :
    ∀ s ∈ l,
      (s.filename, s.page) ∈
        (dedupFirst l seen).map (fun t => (t.filename, t.page)) ∨
      (s.filename, s.page) ∈ seen := by
  induction l generalizing seen with
  | nil => simp
  | cons a l ih =>
    intro s hs
    by_cases h : (a.filename, a.page) ∈ seen
    · simp only [dedupFirst, if_pos h]
      rcases List.mem_cons.mp hs with rfl | hs2
      · right
        exact h
      · exact ih seen s hs2
    · simp only [dedupFirst, if_neg h, List.map_cons]
      rcases List.mem_cons.mp hs with rfl | hs2
      · left
        exact List.mem_cons_self _ _
      · rcases ih ((a.filename, a.page) :: seen) s hs2 with hm | hm
        · left
          exact List.mem_cons_of_mem _ hm
        · rcases List.mem_cons.mp hm with heq | hseen
          · left
            rw [heq]
            exact List.mem_cons_self _ _
          · right
            exact hseen

theorem renderFold_eq (l : List Citation) (k : Nat) (acc : String) :
    (List.enumFrom k l).foldl (fun acc p => acc ++ sourceLine (p.1 + 1) p.2) acc
    = acc ++ numberFrom (k + 1) l := by
  induction l generalizing k acc with
  | nil => simp [numberFrom, List.enumFrom, str_append_empty]
  | cons s l ih =>
    simp [List.enumFrom, numberFrom, ih, str_append_assoc]

/-- Claim C1: for every API response, the displayed assistant text is the
primary text field, unchanged when no file-citation (document name, page)
pairs are present, and otherwise extended with a Sources block listing the
de-duplicated citations numbered from 1 in order of first occurrence; the
de-duplicated list is a subsequence of the collected citations whose
(filename, page) keys are pairwise distinct and cover every collected
citation. -/
theorem response_text_mapping (resp : Resp) :
    (extract_text_and_sources resp =
      if fileCitationsOf resp = [] then resp.output_text
      else resp.output_text ++ "\n\nSources:\n" ++
        numberFrom 1 (dedupFirst (fileCitationsOf resp) []))
    ∧ List.Sublist (dedupFirst (fileCitationsOf resp) []) (fileCitationsOf resp)
    ∧ ((dedupFirst (fileCitationsOf resp) []).map fun s => (s.filename, s.page)).Nodup
    ∧ ∀ s ∈ fileCitationsOf resp,
        (s.filename, s.page) ∈
          ((dedupFirst (fileCitationsOf resp) []).map fun t => (t.filename, t.page)) := by
  refine ⟨?_, dedupFirst_sublist _ _, (dedupFirst_key_nodup _ _).1, ?_⟩
  · unfold extract_text_and_sources
    rw [collectSources_eq_spec, dedupLoop_eq]
    by_cases h : fileCitationsOf resp = []
    · simp [h, dedupFirst]
    · have h2 : ¬(dedupFirst (fileCitationsOf resp) [] = []) := by
        rw [dedupFirst_eq_nil_iff]
        exact h
      rw [if_neg h2, if_neg h, List.enum, renderFold_eq, str_append_assoc]
  · intro s hs
    rcases dedupFirst_covers _ [] s hs with hm | hm
    · exact hm
    · simp at hm

theorem respIdTruthy_iff (m : Msg) :
    respIdTruthy m = true ↔ ∃ s, m.response_id = some s ∧ s ≠ "" := by
  unfold respIdTruthy
  cases m.response_id with
  | none => simp
  | some s => simp [bne_iff_ne]

theorem glri_snoc (chat : List Msg) (m : Msg) :
    get_last_response_id (chat ++ [m]) =
      if m.role == "assistant" && respIdTruthy m then m.response_id
      else get_last_response_id chat := by
  cases h : (m.role == "assistant" && respIdTruthy m) <;>
    simp [get_last_response_id, List.reverse_append, List.find?_cons, h]

theorem glri_none_iff (chat : List Msg) :
    get_last_response_id chat = none ↔
      ∀ m ∈ chat, ¬(m.role = "assistant" ∧ respIdTruthy m = true) := by
  constructor
  · intro h m hm hconj
    unfold get_last_response_id at h
    cases hf : chat.reverse.find? (fun m => m.role == "assistant" && respIdTruthy m) with
    | none =>
      have hp := List.find?_eq_none.mp hf m (List.mem_reverse.mpr hm)
      simp only [Bool.and_eq_true, beq_iff_eq] at hp
      exact hp ⟨hconj.1, hconj.2⟩
    | some m0 =>
      rw [hf] at h
      simp only [Option.some_bind] at h
      have hp := List.find?_some hf
      simp only [Bool.and_eq_true, beq_iff_eq] at hp
      obtain ⟨s, hsome, _⟩ := (respIdTruthy_iff m0).mp hp.2
      rw [hsome] at h
      cases h
  · intro hall
    unfold get_last_response_id
    cases hf : chat.reverse.find? (fun m => m.role == "assistant" && respIdTruthy m) with
    | none => simp
    | some m0 =>
      exfalso
      have hp := List.find?_some hf
      simp only [Bool.and_eq_true, beq_iff_eq] at hp
      exact hall m0 (List.mem_reverse.mp (List.mem_of_find?_eq_some hf)) ⟨hp.1, hp.2⟩

theorem glri_some_spec (chat : List Msg) (r : String)
    (h : get_last_response_id chat = some r) :
    ∃ l₁ m l₂, chat = l₁ ++ m :: l₂ ∧ m.role = "assistant" ∧
      m.response_id = some r ∧ r ≠ "" ∧
      ∀ m2 ∈ l₂, ¬(m2.role = "assistant" ∧ respIdTruthy m2 = true) := by
  induction chat using List.reverseRecOn with
  | nil => exact absurd h (by simp [get_last_response_id])
  | append_singleton l m ih =>
    rw [glri_snoc] at h
    cases hp : (m.role == "assistant" && respIdTruthy m) with
    | true =>
      rw [if_pos hp] at h
      simp only [Bool.and_eq_true, beq_iff_eq] at hp
      obtain ⟨s, hsome, hne⟩ := (respIdTruthy_iff m).mp hp.2
      refine ⟨l, m, [], by simp, hp.1, h, ?_, by simp⟩
      rw [hsome] at h
      injection h with h2
      rw [← h2]
      exact hne
    | false =>
      rw [if_neg (by simp [hp])] at h
      obtain ⟨l₁, m0, l₂, heq, hrole, hid, hne, hafter⟩ := ih h
      refine ⟨l₁, m0, l₂ ++ [m], by rw [heq]; simp, hrole, hid, hne, ?_⟩
      intro m2 hm2 hconj
      rcases List.mem_append.mp hm2 with hin | hin
      · exact hafter m2 hin hconj
      · have : m2 = m := by simpa using hin
        subst this
        rw [hconj.1, hconj.2] at hp
        simp at hp

theorem glri_user_snoc (chat : List Msg) (q tU : String) :
    get_last_response_id
      (chat ++ [{ role := "user", text := q, time := tU, response_id := none }])
    = get_last_response_id chat := by
  rw [glri_snoc]
  simp [respIdTruthy]

theorem ask_unfold (cfg : Config) (st : SessionState) (rawQ : String)
    (resp : Resp) (tU tA : String) (hq : pyStrip rawQ ≠ "") :
    ask cfg st rawQ resp tU tA =
      { state :=
          { chat := some (ensure_history st ++
              [{ role := "user", text := pyStrip rawQ, time := tU,
                 response_id := none },
               { role := "assistant",
                 text := displayed_text
                   (vectorStoreFor cfg (ensure_source st) != "") resp,
                 time := tA, response_id := some resp.id }])
            source := some (ensure_source st) }
        sent := some (buildRequest cfg (ensure_source st) (pyStrip rawQ)
          (ensure_history st ++
            [{ role := "user", text := pyStrip rawQ, time := tU,
               response_id := none }]))
        redirect := "home" } := by
  unfold ask
  rw [if_neg hq]
  simp [List.append_assoc]

theorem buildRequest_input_none (cfg : Config) (source q : String)
    (chat1 : List Msg) (h : get_last_response_id chat1 = none) :
    (buildRequest cfg source q chat1).input =
      InputContent.fresh (get_system_prompt source) q ∧
    (buildRequest cfg source q chat1).previous_response_id = none := by
  simp only [buildRequest, h]
  exact ⟨trivial, trivial⟩

theorem buildRequest_input_some (cfg : Config) (source q : String)
    (chat1 : List Msg) (r : String)
    (h : get_last_response_id chat1 = some r) (hr : r ≠ "") :
    (buildRequest cfg source q chat1).input = InputContent.followup q ∧
    (buildRequest cfg source q chat1).previous_response_id = some r := by
  simp only [buildRequest, h]
  exact ⟨trivial, by simp [hr]⟩

theorem buildRequest_tools (cfg : Config) (source q : String)
    (chat1 : List Msg) :
    (buildRequest cfg source q chat1).tools =
      (if vectorStoreFor cfg source != "" then some (vectorStoreFor cfg source)
       else none) := rfl

theorem displayed_text_oos (resp : Resp)
    (hc : strContains (extract_text_and_sources resp) "Sources:" = false) :
    displayed_text true resp = oosMsg := by
  simp only [displayed_text, hc, Bool.not_false, Bool.and_true, if_true]
  rw [if_neg (by decide : ¬(pyStrip oosMsg = ""))]

theorem displayed_text_no_store (resp : Resp) :
    displayed_text false resp =
      (if pyStrip (extract_text_and_sources resp) = "" then noTextMsg
       else extract_text_and_sources resp) := by
  unfold displayed_text
  simp

/-- Claim C2: for every /ask request, the outbound call carries either a
fresh system-prompt-plus-question payload (exactly when no prior assistant
turn in the transcript has a truthy response identifier) or only the
question together with a continuation reference equal to the response
identifier of the most recent assistant turn that has one. -/
theorem ask_outbound_payload (cfg : Config) (st : SessionState)
    (rawQ : String) (resp : Resp) (tU tA : String)
    (hq : pyStrip rawQ ≠ "") :
    ∃ req, (ask cfg st rawQ resp tU tA).sent = some req ∧
      ((∀ m ∈ ensure_history st,
          ¬(m.role = "assistant" ∧ respIdTruthy m = true)) →
        req.input = InputContent.fresh
          (get_system_prompt (ensure_source st)) (pyStrip rawQ) ∧
        req.previous_response_id = none) ∧
      ((∃ m ∈ ensure_history st,
          m.role = "assistant" ∧ respIdTruthy m = true) →
        req.input = InputContent.followup (pyStrip rawQ) ∧
        ∃ r l₁ m l₂, req.previous_response_id = some r ∧
          ensure_history st = l₁ ++ m :: l₂ ∧ m.role = "assistant" ∧
          m.response_id = some r ∧
          ∀ m2 ∈ l₂, ¬(m2.role = "assistant" ∧ respIdTruthy m2 = true)) := by
  rw [ask_unfold cfg st rawQ resp tU tA hq]
  refine ⟨_, rfl, ?_, ?_⟩
  · intro hnone
    have hg : get_last_response_id (ensure_history st ++
        [{ role := "user", text := pyStrip rawQ, time := tU,
           response_id := none }]) = none := by
      rw [glri_user_snoc]
      exact (glri_none_iff _).mpr hnone
    exact buildRequest_input_none _ _ _ _ hg
  · intro hex
    obtain ⟨m, hm, hrole, htruthy⟩ := hex
    obtain ⟨r, hr⟩ : ∃ r, get_last_response_id (ensure_history st) = some r := by
      cases hgl : get_last_response_id (ensure_history st) with
      | none =>
        exact absurd ((glri_none_iff _).mp hgl m hm ⟨hrole, htruthy⟩) (by simp)
      | some r => exact ⟨r, rfl⟩
    obtain ⟨l₁, m0, l₂, heq, hrole0, hid0, hne0, hafter⟩ := glri_some_spec _ _ hr
    have hg : get_last_response_id (ensure_history st ++
        [{ role := "user", text := pyStrip rawQ, time := tU,
           response_id := none }]) = some r := by
      rw [glri_user_snoc]
      exact hr
    obtain ⟨hin, hprev⟩ := buildRequest_input_some _ _ _ _ _ hg hne0
    exact ⟨hin, r, l₁, m0, l₂, hprev, heq, hrole0, hid0, hafter⟩

/-- Claim C3: for every /ask request with a vector store configured whose
extracted answer does not contain the citation marker "Sources:", the
recorded (and displayed) assistant text is exactly the fixed out-of-scope
message, discarding the text the API returned. -/
theorem ask_out_of_scope_overwrite (cfg : Config) (st : SessionState)
    (rawQ : String) (resp : Resp) (tU tA : String)
    (hq : pyStrip rawQ ≠ "")
    (hs : vectorStoreFor cfg (ensure_source st) ≠ "")
    (hc : strContains (extract_text_and_sources resp) "Sources:" = false) :
    (ask cfg st rawQ resp tU tA).state.chat =
      some (ensure_history st ++
        [{ role := "user", text := pyStrip rawQ, time := tU,
           response_id := none },
         { role := "assistant", text := oosMsg, time := tA,
           response_id := some resp.id }]) := by
  rw [ask_unfold cfg st rawQ resp tU tA hq]
  have hb : (vectorStoreFor cfg (ensure_source st) != "") = true :=
    bne_iff_ne.mpr hs
  rw [hb, displayed_text_oos resp hc]

/-- Claim C5: for every /ask request with no vector store configured, the
question is still forwarded (a request is sent with no retrieval tool),
and the returned answer is recorded as the assistant turn rather than
treated as an error; when the extracted answer is non-blank it is
recorded verbatim. -/
theorem ask_no_store_forwards (cfg : Config) (st : SessionState)
    (rawQ : String) (resp : Resp) (tU tA : String)
    (hq : pyStrip rawQ ≠ "")
    (hs : vectorStoreFor cfg (ensure_source st) = "") :
    ∃ req, (ask cfg st rawQ resp tU tA).sent = some req ∧ req.tools = none ∧
      (ask cfg st rawQ resp tU tA).state.chat =
        some (ensure_history st ++
          [{ role := "user", text := pyStrip rawQ, time := tU,
             response_id := none },
           { role := "assistant", text := displayed_text false resp,
             time := tA, response_id := some resp.id }]) ∧
      (pyStrip (extract_text_and_sources resp) ≠ "" →
        displayed_text false resp = extract_text_and_sources resp) := by
  have hb : (vectorStoreFor cfg (ensure_source st) != "") = false := by
    rw [hs]
    rfl
  rw [ask_unfold cfg st rawQ resp tU tA hq]
  refine ⟨_, rfl, ?_, ?_, ?_⟩
  · rw [buildRequest_tools, hb]
    rfl
  · rw [hb]
  · intro hne
    rw [displayed_text_no_store, if_neg hne]

/-- Claim C6: every successful /ask request appends exactly one user turn
followed by exactly one assistant turn at the end of the transcript, and
neither toggling the source nor rendering the home page reorders or
removes existing turns. -/
theorem transcript_append_only (cfg : Config) (st : SessionState)
    (rawQ : String) (resp : Resp) (tU tA : String)
    (hq : pyStrip rawQ ≠ "") :
    ((ask cfg st rawQ resp tU tA).state.chat =
      some (ensure_history st ++
        [{ role := "user", text := pyStrip rawQ, time := tU,
           response_id := none },
         { role := "assistant",
           text := displayed_text
             (vectorStoreFor cfg (ensure_source st) != "") resp,
           time := tA, response_id := some resp.id }]))
    ∧ (toggle_source st).chat = st.chat
    ∧ (home st).chat = some (ensure_history st) := by
  refine ⟨?_, rfl, rfl⟩
  rw [ask_unfold cfg st rawQ resp tU tA hq]

/-- Counterexample to claim C4 as stated: with a vector store configured
and an API response whose text is empty (and has no citations), the
recorded assistant reply is the out-of-scope message, not the fixed
fallback message. -/
theorem ask_empty_text_fallback_counterexample :
    (ask { MODEL := "m", VECTOR_STORE_BRD := "vsb", VECTOR_STORE_FSD := "vsf" }
        { chat := none, source := none } "hi"
        { id := "r1", output_text := "", output := [] } "t1" "t2").state.chat =
      some [{ role := "user", text := "hi", time := "t1", response_id := none },
            { role := "assistant", text := oosMsg, time := "t2",
              response_id := some "r1" }]
    ∧ oosMsg ≠ noTextMsg := by
  constructor
  · decide
  · decide

/-- Claim C4, amended: for every /ask request in which no vector store is
configured and the API returns empty (or whitespace-only) text with no
file-citation annotations, the fixed fallback message is recorded as the
assistant reply.  (With a store configured, an empty answer yields the
out-of-scope message instead.) -/
theorem ask_empty_no_store_fallback (cfg : Config) (st : SessionState)
    (rawQ : String) (resp : Resp) (tU tA : String)
    (hq : pyStrip rawQ ≠ "")
    (hs : vectorStoreFor cfg (ensure_source st) = "")
    (ht : pyStrip resp.output_text = "")
    (hc : collectSources resp = []) :
    (ask cfg st rawQ resp tU tA).state.chat =
      some (ensure_history st ++
        [{ role := "user", text := pyStrip rawQ, time := tU,
           response_id := none },
         { role := "assistant", text := noTextMsg, time := tA,
           response_id := some resp.id }]) := by
  have hb : (vectorStoreFor cfg (ensure_source st) != "") = false := by
    rw [hs]
    rfl
  have hex : extract_text_and_sources resp = resp.output_text := by
    unfold extract_text_and_sources
    rw [hc]
    simp [dedupLoop]
  rw [ask_unfold cfg st rawQ resp tU tA hq, hb, displayed_text_no_store,
      hex, if_pos ht]

/-- Claim C7: resetting clears the chat history (the transcript becomes
empty) and leaves the selected source label unchanged. -/
theorem reset_clears_history_keeps_source (st : SessionState) :
    (reset st).chat = none ∧ ensure_history (reset st) = [] ∧
    (reset st).source = st.source :=
  ⟨rfl, rfl, rfl⟩

/-- Claim C8: toggling the document collection changes only the selected
source label and does not clear or modify the chat history. -/
theorem toggle_changes_only_source (st : SessionState) :
    (toggle_source st).chat = st.chat ∧
    ensure_history (toggle_source st) = ensure_history st ∧
    (toggle_source st).source =
      some (if ensure_source st = "brd" then "fsd" else "brd") :=
  ⟨rfl, rfl, rfl⟩

/-- Claim C9: an /ask request whose question is empty or whitespace-only
makes no outbound call, leaves the session state unchanged, and redirects
back to the home page. -/
theorem ask_blank_question_noop (cfg : Config) (st : SessionState)
    (rawQ : String) (resp : Resp) (tU tA : String)
    (hq : pyStrip rawQ = "") :
    ask cfg st rawQ resp tU tA = ⟨st, none, "home"⟩ := by
  unfold ask
  simp [hq]

/-- Claim C10: on every reachable session state the selected source is
exactly "brd" (the default of a fresh session) or "fsd", one toggle maps
each value to the other, and two consecutive toggles restore the original
selection. -/
theorem ensure_source_toggle (st : SessionState) :
    ensure_source (toggle_source st) =
      (if ensure_source st = "brd" then "fsd" else "brd") := rfl

theorem source_selection_valid_and_toggle_involutive (st : SessionState)
    (h : Reachable st) :
    (ensure_source st = "brd" ∨ ensure_source st = "fsd")
    ∧ ensure_source { chat := none, source := none } = "brd"
    ∧ ensure_source (toggle_source st) =
        (if ensure_source st = "brd" then "fsd" else "brd")
    ∧ ensure_source (toggle_source (toggle_source st)) = ensure_source st := by
  have hval : ensure_source st = "brd" ∨ ensure_source st = "fsd" := by
    induction h with
    | init =>
      left
      rfl
    | home st2 h2 ih => simpa [home, ensure_source] using ih
    | toggle st2 h2 ih =>
      by_cases hb : ensure_source st2 = "brd"
      · right
        rw [ensure_source_toggle, if_pos hb]
      · left
        rw [ensure_source_toggle, if_neg hb]
    | reset st2 h2 ih => simpa [reset, ensure_source] using ih
    | ask cfg st2 rawQ resp tU tA h2 ih =>
      by_cases hq : pyStrip rawQ = ""
      · unfold ask
        simpa [hq] using ih
      · rw [ask_unfold cfg st2 rawQ resp tU tA hq]
        simpa [ensure_source] using ih
  refine ⟨hval, rfl, ensure_source_toggle st, ?_⟩
  rw [ensure_source_toggle, ensure_source_toggle]
  rcases hval with hb | hb <;> rw [hb] <;> simp

/-- Witness for the C2 theorem at a concrete fresh session. -/
theorem ask_outbound_payload_witness :
    pyStrip "hi" ≠ "" ∧
    (∃ req, (ask { MODEL := "m", VECTOR_STORE_BRD := "b", VECTOR_STORE_FSD := "f" }
        { chat := none, source := none } "hi"
        { id := "r1", output_text := "ok", output := [] } "t1" "t2").sent = some req ∧
      ((∀ m ∈ ensure_history { chat := none, source := none },
          ¬(m.role = "assistant" ∧ respIdTruthy m = true)) →
        req.input = InputContent.fresh
          (get_system_prompt (ensure_source { chat := none, source := none }))
          (pyStrip "hi") ∧
        req.previous_response_id = none) ∧
      ((∃ m ∈ ensure_history { chat := none, source := none },
          m.role = "assistant" ∧ respIdTruthy m = true) →
        req.input = InputContent.followup (pyStrip "hi") ∧
        ∃ r l₁ m l₂, req.previous_response_id = some r ∧
          ensure_history { chat := none, source := none } = l₁ ++ m :: l₂ ∧
          m.role = "assistant" ∧ m.response_id = some r ∧
          ∀ m2 ∈ l₂, ¬(m2.role = "assistant" ∧ respIdTruthy m2 = true))) :=
  ⟨by decide,
   ask_outbound_payload { MODEL := "m", VECTOR_STORE_BRD := "b", VECTOR_STORE_FSD := "f" }
     { chat := none, source := none } "hi"
     { id := "r1", output_text := "ok", output := [] } "t1" "t2" (by decide)⟩

/-- Witness for the C3 theorem at a concrete input with a configured
store and a citation-free answer. -/
theorem ask_out_of_scope_overwrite_witness :
    pyStrip "q" ≠ "" ∧
    vectorStoreFor { MODEL := "m", VECTOR_STORE_BRD := "vsb", VECTOR_STORE_FSD := "vsf" }
      (ensure_source { chat := none, source := none }) ≠ "" ∧
    strContains (extract_text_and_sources
      { id := "r1", output_text := "hello", output := [] }) "Sources:" = false ∧
    (ask { MODEL := "m", VECTOR_STORE_BRD := "vsb", VECTOR_STORE_FSD := "vsf" }
        { chat := none, source := none } "q"
        { id := "r1", output_text := "hello", output := [] } "t1" "t2").state.chat =
      some (ensure_history { chat := none, source := none } ++
        [{ role := "user", text := pyStrip "q", time := "t1", response_id := none },
         { role := "assistant", text := oosMsg, time := "t2",
           response_id := some "r1" }]) :=
  ⟨by decide, by decide, by decide,
   ask_out_of_scope_overwrite
     { MODEL := "m", VECTOR_STORE_BRD := "vsb", VECTOR_STORE_FSD := "vsf" }
     { chat := none, source := none } "q"
     { id := "r1", output_text := "hello", output := [] } "t1" "t2"
     (by decide) (by decide) (by decide)⟩

/-- Witness for the amended C4 theorem at a concrete input with no store
and an empty answer. -/
theorem ask_empty_no_store_fallback_witness :
    pyStrip "q" ≠ "" ∧
    vectorStoreFor { MODEL := "m", VECTOR_STORE_BRD := "", VECTOR_STORE_FSD := "f" }
      (ensure_source { chat := none, source := none }) = "" ∧
    pyStrip (Resp.output_text { id := "r1", output_text := "", output := [] }) = "" ∧
    collectSources { id := "r1", output_text := "", output := [] } = [] ∧
    (ask { MODEL := "m", VECTOR_STORE_BRD := "", VECTOR_STORE_FSD := "f" }
        { chat := none, source := none } "q"
        { id := "r1", output_text := "", output := [] } "t1" "t2").state.chat =
      some (ensure_history { chat := none, source := none } ++
        [{ role := "user", text := pyStrip "q", time := "t1", response_id := none },
         { role := "assistant", text := noTextMsg, time := "t2",
           response_id := some "r1" }]) :=
  ⟨by decide, by decide, by decide, by decide,
   ask_empty_no_store_fallback
     { MODEL := "m", VECTOR_STORE_BRD := "", VECTOR_STORE_FSD := "f" }
     { chat := none, source := none } "q"
     { id := "r1", output_text := "", output := [] } "t1" "t2"
     (by decide) (by decide) (by decide) (by decide)⟩

/-- Witness for the C5 theorem at a concrete input with no store. -/
theorem ask_no_store_forwards_witness :
    pyStrip "q" ≠ "" ∧
    vectorStoreFor { MODEL := "m", VECTOR_STORE_BRD := "", VECTOR_STORE_FSD := "f" }
      (ensure_source { chat := none, source := none }) = "" ∧
    (∃ req, (ask { MODEL := "m", VECTOR_STORE_BRD := "", VECTOR_STORE_FSD := "f" }
        { chat := none, source := none } "q"
        { id := "r1", output_text := "ok", output := [] } "t1" "t2").sent = some req ∧
      req.tools = none ∧
      (ask { MODEL := "m", VECTOR_STORE_BRD := "", VECTOR_STORE_FSD := "f" }
        { chat := none, source := none } "q"
        { id := "r1", output_text := "ok", output := [] } "t1" "t2").state.chat =
        some (ensure_history { chat := none, source := none } ++
          [{ role := "user", text := pyStrip "q", time := "t1", response_id := none },
           { role := "assistant",
             text := displayed_text false { id := "r1", output_text := "ok", output := [] },
             time := "t2", response_id := some "r1" }]) ∧
      (pyStrip (extract_text_and_sources { id := "r1", output_text := "ok", output := [] }) ≠ "" →
        displayed_text false { id := "r1", output_text := "ok", output := [] } =
          extract_text_and_sources { id := "r1", output_text := "ok", output := [] })) :=
  ⟨by decide, by decide,
   ask_no_store_forwards
     { MODEL := "m", VECTOR_STORE_BRD := "", VECTOR_STORE_FSD := "f" }
     { chat := none, source := none } "q"
     { id := "r1", output_text := "ok", output := [] } "t1" "t2"
     (by decide) (by decide)⟩

/-- Witness for the C6 theorem at a concrete input. -/
theorem transcript_append_only_witness :
    pyStrip "hello" ≠ "" ∧
    (((ask { MODEL := "m", VECTOR_STORE_BRD := "b", VECTOR_STORE_FSD := "f" }
        { chat := none, source := none } "hello"
        { id := "r1", output_text := "ok", output := [] } "t1" "t2").state.chat =
      some (ensure_history { chat := none, source := none } ++
        [{ role := "user", text := pyStrip "hello", time := "t1",
           response_id := none },
         { role := "assistant",
           text := displayed_text
             (vectorStoreFor { MODEL := "m", VECTOR_STORE_BRD := "b", VECTOR_STORE_FSD := "f" }
               (ensure_source { chat := none, source := none }) != "")
             { id := "r1", output_text := "ok", output := [] },
           time := "t2", response_id := some "r1" }]))
    ∧ (toggle_source { chat := none, source := none }).chat =
        SessionState.chat { chat := none, source := none }
    ∧ (home { chat := none, source := none }).chat =
        some (ensure_history { chat := none, source := none })) :=
  ⟨by decide,
   transcript_append_only
     { MODEL := "m", VECTOR_STORE_BRD := "b", VECTOR_STORE_FSD := "f" }
     { chat := none, source := none } "hello"
     { id := "r1", output_text := "ok", output := [] } "t1" "t2" (by decide)⟩

/-- Witness for the C9 theorem at a whitespace-only question. -/
theorem ask_blank_question_noop_witness :
    pyStrip "  " = "" ∧
    ask { MODEL := "m", VECTOR_STORE_BRD := "b", VECTOR_STORE_FSD := "f" }
      { chat := some [{ role := "user", text := "x", time := "t",
                        response_id := none }],
        source := some "fsd" } "  "
      { id := "r1", output_text := "ok", output := [] } "t1" "t2" =
      ⟨{ chat := some [{ role := "user", text := "x", time := "t",
                         response_id := none }],
         source := some "fsd" }, none, "home"⟩ :=
  ⟨by decide,
   ask_blank_question_noop
     { MODEL := "m", VECTOR_STORE_BRD := "b", VECTOR_STORE_FSD := "f" }
     { chat := some [{ role := "user", text := "x", time := "t",
                       response_id := none }],
       source := some "fsd" } "  "
     { id := "r1", output_text := "ok", output := [] } "t1" "t2" (by decide)⟩

/-- Witness for the C10 theorem at the fresh session state. -/
theorem source_selection_valid_witness :
    (ensure_source { chat := none, source := none } = "brd" ∨
     ensure_source { chat := none, source := none } = "fsd")
    ∧ ensure_source { chat := none, source := none } = "brd"
    ∧ ensure_source (toggle_source { chat := none, source := none }) =
        (if ensure_source { chat := none, source := none } = "brd"
         then "fsd" else "brd")
    ∧ ensure_source (toggle_source (toggle_source { chat := none, source := none })) =
        ensure_source { chat := none, source := none } :=
  source_selection_valid_and_toggle_involutive
    { chat := none, source := none } Reachable.init
